import Mathlib

/-!
Shallow embedding of the `poc-http` repository: an HTTP server
(`cmd/server/main.go`) with a gin middleware pipeline (rate limit,
time limit) and runtime control endpoints (`/rate-limit`, `/time-limit`,
`/delay`, `/ping`), plus a concurrent load-harness client.

Modelling conventions:
* Go `float64` fields that carry configuration (the rate) are modelled as
  `Rat`; every value the claims touch (−1, 0, 1) is exactly representable.
* Go `time.Duration` and `int64` are modelled as `Int` with explicit
  two's-complement wrap-around (`toInt64`) where Go arithmetic can overflow.
* JSON (de)serialization is an external collaborator; a handler receives the
  outcome of `ShouldBindJSON` as a `BindResult`, and response bodies are
  association lists of JSON primitives.
* The gin middleware chain is built once in `newHandler` from the globals
  as they are at startup; the closures capture those values.
-/

namespace PocHttp

/-- JSON primitive values appearing in this server's response bodies. -/
inductive JPrim where
  | num (q : Rat)
  | int (n : Int)
  | str (s : String)
deriving DecidableEq

/-- A JSON object, as gin.H: keys with primitive values. -/
abbrev JObj := List (String × JPrim)

/-- An HTTP response: status code and optional JSON body
(`c.Status(200)` sends no body, `c.JSON` sends one). -/
structure Response where
  status : Nat
  body : Option JObj
deriving DecidableEq

/-- Go `time.Millisecond` in nanoseconds (`time.Duration` counts ns). -/
def timeDurationMillisecond : Int := 1000000

/-- Two's-complement normalisation to 64 bits: Go `int64` arithmetic
(`time.Duration` multiplication included) wraps on overflow. -/
def toInt64 (n : Int) : Int := (n + 2 ^ 63) % 2 ^ 64 - 2 ^ 63

/-- Truncated (toward-zero) division, Go's `/` on `int64`. -/
def goDiv (a b : Int) : Int := Int.tdiv a b

/-- The four mutable package-level configuration globals of
`cmd/server/main.go`: `RateLimitRate`, `RateLimitBurst`, `TimeLimit`,
`Delay` (durations in nanoseconds). -/
structure ServerConfig where
  rateLimitRate : Rat
  rateLimitBurst : Int
  timeLimit : Int
  delay : Int
deriving DecidableEq

/-- Startup values: `RateLimitRate = 0`, `RateLimitBurst = 1`,
`TimeLimit = 500 * time.Millisecond`, `Delay = 0`. -/
def initialConfig : ServerConfig :=
  { rateLimitRate := 0, rateLimitBurst := 1
    timeLimit := 500 * timeDurationMillisecond, delay := 0 }

/-- Body of `PUT /rate-limit` after JSON binding (`UpdateRateLimitRequest`). -/
structure UpdateRateLimitRequest where
  rate : Rat
  burst : Int
deriving DecidableEq

/-- Body of `PUT /time-limit` after JSON binding: `timeLimit` in ms, int64. -/
structure UpdateTimeLimitRequest where
  timeLimit : Int
deriving DecidableEq

/-- Body of `PUT /delay` after JSON binding: `delay` in ms, int64. -/
structure UpdateDelayRequest where
  delay : Int
deriving DecidableEq

/-- Outcome of `c.ShouldBindJSON(&request)`: the decoded struct, or the
binding error's message. -/
inductive BindResult (α : Type) where
  | ok (a : α)
  | err (msg : String)
deriving DecidableEq

/-- A raw `PUT /rate-limit` JSON object with both fields optional: Go's
`encoding/json` leaves a struct field at its zero value when the key is
absent, and `UpdateRateLimitRequest` has no `binding:"required"` tags. -/
structure RateLimitPayload where
  rate : Option Rat
  burst : Option Int
deriving DecidableEq

/-- Binding of a syntactically valid `PUT /rate-limit` object: absent
fields decode to the zero value (rate 0.0, burst 0). -/
def bindRateLimit (p : RateLimitPayload) : UpdateRateLimitRequest :=
  { rate := p.rate.getD 0, burst := p.burst.getD 0 }

/-- The rate-limit middleware closure returned by `WithRateLimit(r, b)`:
either the no-op `WithoutRateLimit` (when `r == 0`), or a closure holding a
`rate.NewLimiter(r, b)` built once with the captured parameters. -/
inductive RateGate where
  | disabled
  | limited (r : Rat) (b : Int)
deriving DecidableEq

/-- `WithRateLimit(r, b)`: dispatches on `r == 0` at construction time. -/
def WithRateLimit (r : Rat) (b : Int) : RateGate :=
  if r = 0 then RateGate.disabled else RateGate.limited r b

/-- The time-limit middleware closure returned by `WithTimeLimit(timeout)`:
the no-op `noTimeLimit` when `timeout == 0`, else a closure that opens each
request scope with the captured `timeout`. -/
inductive TimeLimitMW where
  | noTimeLimit
  | withTimeout (t : Int)
deriving DecidableEq

/-- `WithTimeLimit(timeout)`: dispatches on `timeout == 0` at construction. -/
def WithTimeLimit (t : Int) : TimeLimitMW :=
  if t = 0 then TimeLimitMW.noTimeLimit else TimeLimitMW.withTimeout t

/-- The deadline a new request scope is opened with by the installed
time-limit middleware: `context.WithTimeout` with the captured duration,
or no deadline for the no-op closure. -/
def scopeTimeout : TimeLimitMW → Option Int
  | TimeLimitMW.noTimeLimit => none
  | TimeLimitMW.withTimeout t => some t

/-- Admission decision of the installed rate-limit middleware on one
request. The token bucket inside `golang.org/x/time/rate` is an external
black box; its verdict for this call enters as `bucketAllow`. The no-op
closure admits unconditionally. -/
def RateGate.allow : RateGate → Bool → Bool
  | RateGate.disabled, _ => true
  | RateGate.limited _ _, bucketAllow => bucketAllow

/-- The handler built by `newHandler()`: the two middleware closures,
constructed once from the globals as they are at that moment. -/
structure Handler where
  rateGate : RateGate
  timeLimitMW : TimeLimitMW
deriving DecidableEq

/-- `newHandler()` reads the globals once and builds the closures. -/
def newHandler (cfg : ServerConfig) : Handler :=
  { rateGate := WithRateLimit cfg.rateLimitRate cfg.rateLimitBurst
    timeLimitMW := WithTimeLimit cfg.timeLimit }

/-- Whole server state: the handler fixed at startup, and the mutable
configuration globals. -/
structure SystemState where
  handler : Handler
  config : ServerConfig
deriving DecidableEq

/-- The server right after `main` has built the handler from the startup
globals. -/
def serverStartup : SystemState :=
  { handler := newHandler initialConfig, config := initialConfig }

/-- `buildError(message)`: the `gin.H{"error": message}` body. -/
def buildError (message : String) : JObj := [("error", JPrim.str message)]

/-- First statement of `handleUpdateRateLimit`'s success path:
`RateLimitRate = request.Rate`. -/
def writeRate (c : ServerConfig) (r : Rat) : ServerConfig :=
  { c with rateLimitRate := r }

/-- Second statement of `handleUpdateRateLimit`'s success path:
`RateLimitBurst = request.Burst`. -/
def writeBurst (c : ServerConfig) (b : Int) : ServerConfig :=
  { c with rateLimitBurst := b }

/-- `handleGetRateLimit`: responds 200 with the current globals. -/
def handleGetRateLimit (c : ServerConfig) : Response :=
  { status := 200
    body := some [("rate", JPrim.num c.rateLimitRate),
                  ("burst", JPrim.int c.rateLimitBurst)] }

/-- `handleUpdateRateLimit`: 400 with the bind error on failure; on success
the two global writes (rate then burst) and a bare 200. The handler
closures are untouched. -/
def handleUpdateRateLimit (s : SystemState)
    (bind : BindResult UpdateRateLimitRequest) : SystemState × Response :=
  match bind with
  | BindResult.err msg => (s, { status := 400, body := some (buildError msg) })
  | BindResult.ok req =>
      ({ s with config := writeBurst (writeRate s.config req.rate) req.burst },
       { status := 200, body := none })

/-- `handleGetTimeLimit`: responds 200 with key `"timeout"` holding
`TimeLimit / time.Millisecond`. -/
def handleGetTimeLimit (c : ServerConfig) : Response :=
  { status := 200
    body := some [("timeout", JPrim.int (goDiv c.timeLimit timeDurationMillisecond))] }

/-- `handleUpdateTimeLimit`: 400 on bind failure; on success stores
`time.Duration(request.TimeLimit) * time.Millisecond` (int64 product,
wrapping) and responds bare 200. -/
def handleUpdateTimeLimit (s : SystemState)
    (bind : BindResult UpdateTimeLimitRequest) : SystemState × Response :=
  match bind with
  | BindResult.err msg => (s, { status := 400, body := some (buildError msg) })
  | BindResult.ok req =>
      ({ s with config :=
          { s.config with timeLimit := toInt64 (req.timeLimit * timeDurationMillisecond) } },
       { status := 200, body := none })

/-- `handleGetDelay`: responds 200 with `Delay / time.Millisecond`. -/
def handleGetDelay (c : ServerConfig) : Response :=
  { status := 200
    body := some [("delay", JPrim.int (goDiv c.delay timeDurationMillisecond))] }

/-- `handleUpdateDelay`: 400 on bind failure; on success stores
`time.Duration(request.Delay) * time.Millisecond` (int64 product, wrapping)
and responds bare 200. -/
def handleUpdateDelay (s : SystemState)
    (bind : BindResult UpdateDelayRequest) : SystemState × Response :=
  match bind with
  | BindResult.err msg => (s, { status := 400, body := some (buildError msg) })
  | BindResult.ok req =>
      ({ s with config :=
          { s.config with delay := toInt64 (req.delay * timeDurationMillisecond) } },
       { status := 200, body := none })

/-- Why the request context became done: deadline expiry or cancellation.
`ctx.Err().Error()` yields the corresponding message. -/
inductive CtxErr where
  | deadlineExceeded
  | canceled
deriving DecidableEq

/-- Message of the context error, as Go's `context` package renders it. -/
def CtxErr.message : CtxErr → String
  | CtxErr.deadlineExceeded => "context deadline exceeded"
  | CtxErr.canceled => "context canceled"

/-- Which arm of `handlePing`'s `select` fires first: the `time.After(Delay)`
channel, or `ctx.Done()` with the context's error. -/
inductive PingRace where
  | delayElapsed
  | ctxDone (e : CtxErr)
deriving DecidableEq

/-- `handlePing`: 200 `{"message":"pong"}` when the delay elapses first;
500 with `buildError(ctx.Err().Error())` when the context is done first. -/
def handlePing : PingRace → Response
  | PingRace.delayElapsed =>
      { status := 200, body := some [("message", JPrim.str "pong")] }
  | PingRace.ctxDone e =>
      { status := 500, body := some (buildError e.message) }

/-- One attempt's transport outcome in the load harness: `ping(client)`
returned a response, or an error. -/
inductive TransportResult where
  | ok (status : Int) (body : String)
  | err (reason : String)
deriving DecidableEq

/-- What the requester's loop body records for one attempt. -/
inductive AttemptRecord where
  | finished (status : Int) (body : String)
  | failed (reason : String)
deriving DecidableEq

/-- Body of one loop iteration of a requester: on error the harness logs
the failure and `continue`s; otherwise the attempt finished. -/
def requesterRecord : TransportResult → AttemptRecord
  | TransportResult.ok st b => AttemptRecord.finished st b
  | TransportResult.err r => AttemptRecord.failed r

/-- One requester's sequential loop over its attempts: every iteration
runs and records, an error never breaks out of the loop. -/
def runRequester : List TransportResult → List AttemptRecord
  | [] => []
  | o :: rest => requesterRecord o :: runRequester rest

/-- The whole harness run: each requester goroutine processes its own
attempt sequence; `waitGroup.Wait()` joins them all, so the run's result
contains every requester's complete record list. -/
def runHarness (attempts : List (List TransportResult)) : List (List AttemptRecord) :=
  attempts.map runRequester

/-! Helper lemmas shared by the theorems below. -/

/-- Values already in int64 range are fixed points of the wrap-around. -/
theorem toInt64_eq_of_lt (n : Int) (h0 : 0 ≤ n) (h1 : n < 2 ^ 63) :
    toInt64 n = n := by
  unfold toInt64
  omega

/-- Converting a whole number of milliseconds to nanoseconds and back is
exact under truncated division. -/
theorem goDiv_mul_millisecond (m : Int) :
    goDiv (m * timeDurationMillisecond) timeDurationMillisecond = m := by
  unfold goDiv timeDurationMillisecond
  exact Int.mul_tdiv_cancel m (by norm_num)

/-- A requester records exactly one outcome per attempt, no early exit. -/
theorem runRequester_length (l : List TransportResult) :
    (runRequester l).length = l.length := by
  induction l with
  | nil => rfl
  | cons o rest ih => simp [runRequester, ih]

/-! Theorems for the claims. -/

/-- C1: refuted by the code. After a successful
`PUT /rate-limit {"rate":1,"burst":1}` on the startup state, the globals do
change, but the installed rate-limit middleware is still the no-op closure
that `WithRateLimit(0, 1)` returned when `newHandler` ran at startup: the
handler is unchanged, its gate is `disabled`, and it admits every subsequent
`GET /ping` whatever the token bucket would say — the new (rate, burst) are
never consulted, so two back-to-back pings are both admitted where the claim
requires the second to be rejected under burst 1. -/
theorem rateLimit_update_not_consulted :
    (handleUpdateRateLimit serverStartup
        (BindResult.ok { rate := 1, burst := 1 })).2.status = 200 ∧
    (handleUpdateRateLimit serverStartup
        (BindResult.ok { rate := 1, burst := 1 })).1.config.rateLimitRate = 1 ∧
    (handleUpdateRateLimit serverStartup
        (BindResult.ok { rate := 1, burst := 1 })).1.config.rateLimitBurst = 1 ∧
    (handleUpdateRateLimit serverStartup
        (BindResult.ok { rate := 1, burst := 1 })).1.handler = serverStartup.handler ∧
    (handleUpdateRateLimit serverStartup
        (BindResult.ok { rate := 1, burst := 1 })).1.handler.rateGate = RateGate.disabled ∧
    RateGate.allow (handleUpdateRateLimit serverStartup
        (BindResult.ok { rate := 1, burst := 1 })).1.handler.rateGate true = true ∧
    RateGate.allow (handleUpdateRateLimit serverStartup
        (BindResult.ok { rate := 1, burst := 1 })).1.handler.rateGate false = true := by decide

/-- C2: refuted by the code. After a successful
`PUT /time-limit {"timeLimit":1000}` the stored `TimeLimit` global becomes
1000 ms, but the time-limit middleware closure captured 500 ms when
`newHandler` ran, so every request scope opened afterwards still uses the
startup 500 ms, not the newly stored value. -/
theorem timeLimit_update_not_consulted :
    (handleUpdateTimeLimit serverStartup
        (BindResult.ok { timeLimit := 1000 })).2.status = 200 ∧
    (handleUpdateTimeLimit serverStartup
        (BindResult.ok { timeLimit := 1000 })).1.config.timeLimit = 1000000000 ∧
    (handleUpdateTimeLimit serverStartup
        (BindResult.ok { timeLimit := 1000 })).1.handler = serverStartup.handler ∧
    scopeTimeout (handleUpdateTimeLimit serverStartup
        (BindResult.ok { timeLimit := 1000 })).1.handler.timeLimitMW = some 500000000 ∧
    scopeTimeout (handleUpdateTimeLimit serverStartup
        (BindResult.ok { timeLimit := 1000 })).1.handler.timeLimitMW ≠
      some (handleUpdateTimeLimit serverStartup
        (BindResult.ok { timeLimit := 1000 })).1.config.timeLimit := by decide

/-- C3 counterexample: `PUT /rate-limit {"rate":-1,"burst":1}` binds
successfully (there are no binding validators), so the handler answers 200,
not 400, and the stored configuration does change: a subsequent
`GET /rate-limit` no longer returns the prior values. -/
theorem rateLimit_negative_rate_accepted :
    (handleUpdateRateLimit serverStartup
        (BindResult.ok { rate := -1, burst := 1 })).2.status = 200 ∧
    (handleUpdateRateLimit serverStartup
        (BindResult.ok { rate := -1, burst := 1 })).2.status ≠ 400 ∧
    (handleUpdateRateLimit serverStartup
        (BindResult.ok { rate := -1, burst := 1 })).1.config.rateLimitRate = -1 ∧
    handleGetRateLimit (handleUpdateRateLimit serverStartup
        (BindResult.ok { rate := -1, burst := 1 })).1.config ≠
      handleGetRateLimit serverStartup.config := by decide

/-- C3 amended: the only client errors the update handlers produce are JSON
binding failures: on a bind error each handler returns 400 with the error
message and leaves the whole state unchanged, while every successfully bound
payload, invariant-violating values included, is stored as-is with a 200. -/
theorem update_handlers_reject_only_bind_errors (s : SystemState) (msg : String)
    (reqR : UpdateRateLimitRequest) (reqT : UpdateTimeLimitRequest)
    (reqD : UpdateDelayRequest) :
    handleUpdateRateLimit s (BindResult.err msg) =
      (s, { status := 400, body := some (buildError msg) }) ∧
    handleUpdateTimeLimit s (BindResult.err msg) =
      (s, { status := 400, body := some (buildError msg) }) ∧
    handleUpdateDelay s (BindResult.err msg) =
      (s, { status := 400, body := some (buildError msg) }) ∧
    (handleUpdateRateLimit s (BindResult.ok reqR)).2.status = 200 ∧
    (handleUpdateRateLimit s (BindResult.ok reqR)).1.config.rateLimitRate = reqR.rate ∧
    (handleUpdateRateLimit s (BindResult.ok reqR)).1.config.rateLimitBurst = reqR.burst ∧
    (handleUpdateTimeLimit s (BindResult.ok reqT)).2.status = 200 ∧
    (handleUpdateDelay s (BindResult.ok reqD)).2.status = 200 :=
  ⟨rfl, rfl, rfl, rfl, rfl, rfl, rfl, rfl⟩

/-- C4: `handlePing` always produces a response: 200 `{"message":"pong"}`
when the configured delay elapses before the request context is done, and a
5xx (precisely 500) with a JSON error body when the context is done first;
every possible race outcome yields one of these two responses. -/
theorem ping_always_responds (e : CtxErr) (race : PingRace) :
    handlePing PingRace.delayElapsed =
      { status := 200, body := some [("message", JPrim.str "pong")] } ∧
    handlePing (PingRace.ctxDone e) =
      { status := 500, body := some [("error", JPrim.str (CtxErr.message e))] } ∧
    (handlePing (PingRace.ctxDone e)).status / 100 = 5 ∧
    ((handlePing race).status = 200 ∨ (handlePing race).status = 500) := by
  refine ⟨rfl, rfl, (by decide : (500 : Nat) / 100 = 5), ?_⟩
  cases race with
  | delayElapsed => exact Or.inl rfl
  | ctxDone e2 => exact Or.inr rfl

/-- C5 counterexample: the success path of `handleUpdateRateLimit` is two
separate global writes (rate, then burst). A `GET /rate-limit` that runs
between the two writes of the update `{rate := 1, burst := 2}` on the
startup configuration observes the new rate 1 with the old burst 1 — a
configuration distinct from both the prior (0, 1) and the final (1, 2). -/
theorem rateLimit_update_torn_read :
    let c0 := serverStartup.config
    let mid := writeRate c0 1
    (handleUpdateRateLimit serverStartup
        (BindResult.ok { rate := 1, burst := 2 })).1.config = writeBurst mid 2 ∧
    handleGetRateLimit mid =
      { status := 200
        body := some [("rate", JPrim.num 1), ("burst", JPrim.int 1)] } ∧
    mid.rateLimitRate ≠ c0.rateLimitRate ∧
    mid.rateLimitBurst = c0.rateLimitBurst ∧
    mid ≠ c0 ∧ mid ≠ writeBurst mid 2 := by decide

/-- C5 amended: during one rate-limit update the observable (rate, burst)
pairs are exactly: before either write the old pair, between the writes the
new rate with the OLD burst, and after both writes the new pair — the config
is not replaced as a unit, so a concurrent reader can see a torn value. -/
theorem rateLimit_update_intermediate_states (c : ServerConfig) (r : Rat) (b : Int) :
    [(c.rateLimitRate, c.rateLimitBurst),
     ((writeRate c r).rateLimitRate, (writeRate c r).rateLimitBurst),
     ((writeBurst (writeRate c r) b).rateLimitRate,
      (writeBurst (writeRate c r) b).rateLimitBurst)] =
    [(c.rateLimitRate, c.rateLimitBurst), (r, c.rateLimitBurst), (r, b)] := rfl

/-- C6 counterexample: `PUT /delay {"delay": 9223372036855}` succeeds with
200, but the int64 product `9223372036855 * time.Millisecond` overflows and
wraps, so the subsequent `GET /delay` returns −9223372036854, not the value
that was put. -/
theorem delay_roundtrip_overflow :
    (handleUpdateDelay serverStartup
        (BindResult.ok { delay := 9223372036855 })).2.status = 200 ∧
    handleGetDelay (handleUpdateDelay serverStartup
        (BindResult.ok { delay := 9223372036855 })).1.config =
      { status := 200, body := some [("delay", JPrim.int (-9223372036854))] } ∧
    (-9223372036854 : Int) ≠ 9223372036855 := by decide

/-- C6 amended: for every d with 0 ≤ d ≤ 9223372036854 (so that d ms fits an
int64 nanosecond count), a successful `PUT /delay {"delay": d}` followed by
`GET /delay` with no intervening update returns 200 `{"delay": d}`. -/
theorem delay_roundtrip (s : SystemState) (d : Int)
    (h0 : 0 ≤ d) (h1 : d ≤ 9223372036854) :
    (handleUpdateDelay s (BindResult.ok { delay := d })).2.status = 200 ∧
    handleGetDelay (handleUpdateDelay s (BindResult.ok { delay := d })).1.config =
      { status := 200, body := some [("delay", JPrim.int d)] } := by
  refine ⟨rfl, ?_⟩
  have hw : toInt64 (d * timeDurationMillisecond) = d * timeDurationMillisecond := by
    apply toInt64_eq_of_lt <;> (unfold timeDurationMillisecond; omega)
  have hv : goDiv (toInt64 (d * timeDurationMillisecond)) timeDurationMillisecond = d := by
    rw [hw, goDiv_mul_millisecond]
  simp [handleGetDelay, handleUpdateDelay, hv]

/-- Witness for delay_roundtrip at d = 10. -/
theorem delay_roundtrip_witness :
    (0 ≤ (10 : Int)) ∧ ((10 : Int) ≤ 9223372036854) ∧
    ((handleUpdateDelay serverStartup (BindResult.ok { delay := 10 })).2.status = 200 ∧
     handleGetDelay (handleUpdateDelay serverStartup
        (BindResult.ok { delay := 10 })).1.config =
       { status := 200, body := some [("delay", JPrim.int 10)] }) :=
  ⟨by decide, by decide, delay_roundtrip serverStartup 10 (by decide) (by decide)⟩

/-- C7 counterexample: the body of `GET /time-limit` on the startup
configuration carries the single key "timeout" (value 500 ms); a lookup of
the claimed key "timeLimit" finds nothing. -/
theorem timeLimit_get_key_not_timeLimit :
    handleGetTimeLimit serverStartup.config =
      { status := 200, body := some [("timeout", JPrim.int 500)] } ∧
    ((handleGetTimeLimit serverStartup.config).body.getD []).lookup "timeLimit" = none ∧
    ((handleGetTimeLimit serverStartup.config).body.getD []).lookup "timeout" =
      some (JPrim.int 500) := by decide

/-- C7 amended: every `GET /time-limit` returns 200 with a JSON object whose
single key is "timeout", holding the currently configured deadline expressed
in integer milliseconds. -/
theorem timeLimit_get_timeout_millis (c : ServerConfig) (m : Int)
    (hm : c.timeLimit = m * timeDurationMillisecond) :
    handleGetTimeLimit c =
      { status := 200, body := some [("timeout", JPrim.int m)] } := by
  simp [handleGetTimeLimit, hm, goDiv_mul_millisecond]

/-- Witness for timeLimit_get_timeout_millis at the startup configuration. -/
theorem timeLimit_get_timeout_millis_witness :
    serverStartup.config.timeLimit = 500 * timeDurationMillisecond ∧
    handleGetTimeLimit serverStartup.config =
      { status := 200, body := some [("timeout", JPrim.int 500)] } :=
  ⟨by decide, timeLimit_get_timeout_millis serverStartup.config 500 (by decide)⟩

/-- C8: a transport failure on one attempt is recorded and the requester
proceeds with the remaining attempts (the loop body logs and continues), and
the harness result joins every requester: it has one record list per
requester, each as long as that requester's full attempt sequence, failures
included. -/
theorem harness_failure_continues_and_joins (reason : String)
    (rest : List TransportResult) (attempts : List (List TransportResult)) :
    runRequester (TransportResult.err reason :: rest) =
      AttemptRecord.failed reason :: runRequester rest ∧
    (runHarness attempts).length = attempts.length ∧
    (runHarness attempts).map List.length = attempts.map List.length := by
  refine ⟨rfl, by simp [runHarness], ?_⟩
  unfold runHarness
  induction attempts with
  | nil => rfl
  | cons a t ih => simp [runRequester_length]

/-- C9: the 500 branch of `handlePing` fires on any resolution of the
request context, not only deadline expiry: whatever made the context done,
the response is 500 with the context's error message in the "error" field —
in particular "context canceled" for a cancellation. -/
theorem ping_ctx_done_any_resolution (e : CtxErr) :
    handlePing (PingRace.ctxDone e) =
      { status := 500, body := some (buildError (CtxErr.message e)) } ∧
    handlePing (PingRace.ctxDone CtxErr.canceled) =
      { status := 500, body := some [("error", JPrim.str "context canceled")] } ∧
    handlePing (PingRace.ctxDone CtxErr.deadlineExceeded) =
      { status := 500, body := some [("error", JPrim.str "context deadline exceeded")] } :=
  ⟨rfl, rfl, rfl⟩

/-- C10: a syntactically valid `PUT /rate-limit` object binds omitted fields
to their zero values; the handler accepts the bound request with 200 and
stores it, so `PUT /rate-limit {}` sets rate = 0 and burst = 0, and the
stored burst is below the stated burst ≥ 1 invariant. -/
theorem rateLimit_omitted_fields_default_zero (s : SystemState)
    (q : Rat) (b : Int) :
    bindRateLimit { rate := none, burst := none } = { rate := 0, burst := 0 } ∧
    bindRateLimit { rate := some q, burst := none } = { rate := q, burst := 0 } ∧
    bindRateLimit { rate := none, burst := some b } = { rate := 0, burst := b } ∧
    (handleUpdateRateLimit s
        (BindResult.ok (bindRateLimit { rate := none, burst := none }))).2.status = 200 ∧
    (handleUpdateRateLimit s
        (BindResult.ok (bindRateLimit { rate := none, burst := none }))).1.config.rateLimitRate = 0 ∧
    (handleUpdateRateLimit s
        (BindResult.ok (bindRateLimit { rate := none, burst := none }))).1.config.rateLimitBurst = 0 ∧
    (handleUpdateRateLimit s
        (BindResult.ok (bindRateLimit { rate := none, burst := none }))).1.config.rateLimitBurst < 1 :=
  ⟨rfl, rfl, rfl, rfl, rfl, rfl, (by decide : (0 : Int) < 1)⟩

end PocHttp
